import Mathlib

/-!
Verification of the provisioning-descriptor parser of
`azurelinuxagent/protocol/ovfenv.py` (class `OvfEnv`).

The parser walks a namespaced XML tree: the tree type, the lookup helpers
(`parse_doc`, `find`, `findall`, `findtext` from the `textutil` collaborator)
are modelled from the specification (§4.1 step 1 and the §9 design note: a
lookup takes a parent node, a local name and a namespace URI and returns an
optional single child or the sequence of matching children; element text is
optional, an element without text maps to the unset state).  Everything in
`OvfEnv` itself (`__init__`, `parse`, `_validate_ovf`, the module constants)
is translated directly from the source.
-/

set_option autoImplicit false

/-- A node of the parsed XML tree: a namespaced element with a list of child
nodes, or a text node carrying character data.  An XML parser never produces
a text node with empty character data, which `wfNode` below records. -/
inductive XmlNode where
  | element (ns : String) (name : String) (children : List XmlNode) : XmlNode
  | text (data : String) : XmlNode

/-- Modelled from the spec: a raw document text as seen by the parser.  It is
either a string that is not well-formed XML (the empty string among them), or
a well-formed document together with the tree it parses to. -/
inductive DocText where
  | malformed (s : String) : DocText
  | parsed (doc : XmlNode) : DocText

/-- The error kinds of §7.  `invalidInput` is the `ValueError` raised by
`OvfEnv.__init__` on an absent document, `protocolError` is the
`ProtocolError` raised by `_validate_ovf` (structural validation), and
`malformedXml` is the XML-parser failure on text that is not well-formed. -/
inductive ParseError where
  | invalidInput (msg : String) : ParseError
  | protocolError (msg : String) : ParseError
  | malformedXml : ParseError

/-- Python string comparison `s < t` on the underlying code-point
sequences: strict lexicographic order. -/
def pyStrLtChars : List Char → List Char → Bool
  | [], [] => false
  | [], _ :: _ => true
  | _ :: _, [] => false
  | a :: as, b :: bs =>
    if a < b then true else if b < a then false else pyStrLtChars as bs

/-- Python `s < t` on strings (so `t > s` in the source is `pyStrLt s t`). -/
def pyStrLt (s t : String) : Bool := pyStrLtChars s.data t.data

/-- Python `s.lower()` on the ASCII fragment the parser compares against
(the only comparand is the ASCII literal `"true"`). -/
def pyLower (s : String) : String := String.mk (s.data.map Char.toLower)

def OVF_VERSION : String := "1.0"

def OVF_NAME_SPACE : String := "http://schemas.dmtf.org/ovf/environment/1"

def WA_NAME_SPACE : String := "http://schemas.microsoft.com/windowsazure"

/-- Modelled from the spec (§9): whether a child node is an element with the
given local name in the given namespace. -/
def matchesTag (tag : String) (ns : String) : XmlNode → Bool
  | XmlNode.element cns cname _ => cns == ns && cname == tag
  | XmlNode.text _ => false

/-- Modelled from the spec (§9): the children of `root` whose namespace and
local name match, in document order. -/
def findall (root : XmlNode) (tag : String) (ns : String) : List XmlNode :=
  match root with
  | XmlNode.element _ _ children => children.filter (matchesTag tag ns)
  | XmlNode.text _ => []

/-- Modelled from the spec (§9): the first matching child, if any. -/
def find (root : XmlNode) (tag : String) (ns : String) : Option XmlNode :=
  (findall root tag ns).head?

/-- Modelled from the spec: the character data of the first text child of a
node, unset when the node has no text child.  (On a text node itself it is
the node's data; lookups never return text nodes, so that case is inert.) -/
def gettextList : List XmlNode → Option String
  | [] => none
  | XmlNode.text d :: _ => some d
  | XmlNode.element _ _ _ :: rest => gettextList rest

/-- Modelled from the spec: text content of a node, unset when absent. -/
def gettext (node : XmlNode) : Option String :=
  match node with
  | XmlNode.element _ _ children => gettextList children
  | XmlNode.text d => some d

/-- Modelled from the spec (§9): optional text of the first matching child. -/
def findtext (root : XmlNode) (tag : String) (ns : String) : Option String :=
  (find root tag ns).bind gettext

/-- Modelled from the spec (§4.1 step 1): parse the document text into a
DOM-like tree; text that is not well-formed XML fails immediately with the
malformed-XML error. -/
def parse_doc (t : DocText) : Except ParseError XmlNode :=
  match t with
  | DocText.malformed _ => Except.error ParseError.malformedXml
  | DocText.parsed doc => Except.ok doc

/-- Source `_validate_ovf(val, msg)`: raise `ProtocolError` when the looked-up
value is `None`; otherwise the value passes through unchanged. -/
def _validate_ovf {α : Type} : Option α → String → Except ParseError α
  | none, msg => Except.error (ParseError.protocolError ("Failed to parse OVF XML: " ++ msg))
  | some v, _ => Except.ok v

/-- The state of an `OvfEnv` object: the fields assigned in
`OvfEnv.__init__` and mutated by `OvfEnv.parse`.  `ssh_pubkeys` entries are
`(path, fingerprint, value)` triples and `ssh_keypairs` entries are
`(path, fingerprint)` pairs, each component optional exactly as in the
source (`findtext` may return `None`). -/
structure OvfEnv where
  hostname : Option String
  username : Option String
  user_password : Option String
  customdata : Option String
  disable_ssh_password_auth : Bool
  ssh_pubkeys : List (Option String × Option String × Option String)
  ssh_keypairs : List (Option String × Option String)

/-- The field values set by `OvfEnv.__init__` before it calls `parse`. -/
def initialOvfEnv : OvfEnv :=
  { hostname := none
    username := none
    user_password := none
    customdata := none
    disable_ssh_password_auth := true
    ssh_pubkeys := []
    ssh_keypairs := [] }

/-- Source `OvfEnv.parse(self, xml_text)`, translated step for step.  The
returned pair carries the updated object state and whether the
newer-provisioning-configuration warning was emitted (`version > OVF_VERSION`,
a lexicographic string comparison as in Python).  A raised exception is the
`Except.error` case; the source mutates `self` field by field, but an
exception escapes the constructor, so on failure no object state is
observable and returning only the error is faithful. -/
def OvfEnv.parse (self : OvfEnv) (xml_text : DocText) : Except ParseError (OvfEnv × Bool) :=
  match parse_doc xml_text with
  | Except.error e => Except.error e
  | Except.ok xml_doc =>
  match _validate_ovf (find xml_doc "Environment" OVF_NAME_SPACE) "Environment not found" with
  | Except.error e => Except.error e
  | Except.ok environment =>
  match _validate_ovf (find environment "ProvisioningSection" WA_NAME_SPACE)
      "ProvisioningSection not found" with
  | Except.error e => Except.error e
  | Except.ok sec =>
  match _validate_ovf (findtext environment "Version" WA_NAME_SPACE) "Version not found" with
  | Except.error e => Except.error e
  | Except.ok version =>
  let warned := pyStrLt OVF_VERSION version
  match _validate_ovf (find sec "LinuxProvisioningConfigurationSet" WA_NAME_SPACE)
      "LinuxProvisioningConfigurationSet not found" with
  | Except.error e => Except.error e
  | Except.ok conf_set =>
  match _validate_ovf (findtext conf_set "HostName" WA_NAME_SPACE) "HostName not found" with
  | Except.error e => Except.error e
  | Except.ok hostname =>
  match _validate_ovf (findtext conf_set "UserName" WA_NAME_SPACE) "UserName not found" with
  | Except.error e => Except.error e
  | Except.ok username =>
  let user_password := findtext conf_set "UserPassword" WA_NAME_SPACE
  let customdata := findtext conf_set "CustomData" WA_NAME_SPACE
  let auth_option := findtext conf_set "DisableSshPasswordAuthentication" WA_NAME_SPACE
  let disable :=
    match auth_option with
    | some s => pyLower s == "true"
    | none => false
  let pubkeys := (findall conf_set "PublicKey" WA_NAME_SPACE).map fun pk =>
    (findtext pk "Path" WA_NAME_SPACE, findtext pk "Fingerprint" WA_NAME_SPACE,
     findtext pk "Value" WA_NAME_SPACE)
  let keypairs := (findall conf_set "KeyPair" WA_NAME_SPACE).map fun kp =>
    (findtext kp "Path" WA_NAME_SPACE, findtext kp "Fingerprint" WA_NAME_SPACE)
  Except.ok
    ({ self with
        hostname := some hostname
        username := some username
        user_password := user_password
        customdata := customdata
        disable_ssh_password_auth := disable
        ssh_pubkeys := self.ssh_pubkeys ++ pubkeys
        ssh_keypairs := self.ssh_keypairs ++ keypairs }, warned)

/-- Source `OvfEnv.__init__(self, xml_text)`: reject an absent document with
`ValueError("ovf-env is None")`, otherwise initialise the fields and parse. -/
def OvfEnv.init (xml_text : Option DocText) : Except ParseError (OvfEnv × Bool) :=
  match xml_text with
  | none => Except.error (ParseError.invalidInput "ovf-env is None")
  | some t => OvfEnv.parse initialOvfEnv t

mutual

/-- Well-formedness of a parser-produced tree: an XML parser never emits a
text node whose character data is the empty string (an element with no
content simply has no text child), so every text node holds non-empty data. -/
def wfNode : XmlNode → Bool
  | XmlNode.text d => !(d == "")
  | XmlNode.element _ _ cs => wfNodes cs

/-- Well-formedness of a list of parser-produced nodes. -/
def wfNodes : List XmlNode → Bool
  | [] => true
  | c :: cs => wfNode c && wfNodes cs

end

/-- Well-formedness of a raw document text: when it parses, the resulting
tree is parser-produced. -/
def wfDoc : DocText → Bool
  | DocText.malformed _ => true
  | DocText.parsed d => wfNode d

/-- The boolean the source computes for `disable_ssh_password_auth`:
`auth_option is not None and auth_option.lower() == "true"`. -/
def authFlag : Option String → Bool
  | some s => pyLower s == "true"
  | none => false

/-- The public-key triples the source appends: one `(Path, Fingerprint,
Value)` entry per `PublicKey` child of the configuration set, in document
order. -/
def pubkeysOf (conf_set : XmlNode) : List (Option String × Option String × Option String) :=
  (findall conf_set "PublicKey" WA_NAME_SPACE).map fun pk =>
    (findtext pk "Path" WA_NAME_SPACE, findtext pk "Fingerprint" WA_NAME_SPACE,
     findtext pk "Value" WA_NAME_SPACE)

/-- The key-pair pairs the source appends: one `(Path, Fingerprint)` entry
per `KeyPair` child of the configuration set, in document order. -/
def keypairsOf (conf_set : XmlNode) : List (Option String × Option String) :=
  (findall conf_set "KeyPair" WA_NAME_SPACE).map fun kp =>
    (findtext kp "Path" WA_NAME_SPACE, findtext kp "Fingerprint" WA_NAME_SPACE)

/-- The `LinuxProvisioningConfigurationSet` node reached by the parser's
fixed traversal (ignoring the `Version` lookup, which yields text, not a
traversal point). -/
def confSetOf (doc : XmlNode) : Option XmlNode :=
  (find doc "Environment" OVF_NAME_SPACE).bind fun environment =>
    (find environment "ProvisioningSection" WA_NAME_SPACE).bind fun sec =>
      find sec "LinuxProvisioningConfigurationSet" WA_NAME_SPACE

/-- The first required element missing along the parser's fixed traversal of
a parsed document, `none` when every required lookup succeeds.  The order of
the checks is the order of the `_validate_ovf` calls in the source. -/
def firstMissing (doc : XmlNode) : Option String :=
  match find doc "Environment" OVF_NAME_SPACE with
  | none => some "Environment"
  | some environment =>
  match find environment "ProvisioningSection" WA_NAME_SPACE with
  | none => some "ProvisioningSection"
  | some sec =>
  match findtext environment "Version" WA_NAME_SPACE with
  | none => some "Version"
  | some _ =>
  match find sec "LinuxProvisioningConfigurationSet" WA_NAME_SPACE with
  | none => some "LinuxProvisioningConfigurationSet"
  | some conf_set =>
  match findtext conf_set "HostName" WA_NAME_SPACE with
  | none => some "HostName"
  | some _ =>
  match findtext conf_set "UserName" WA_NAME_SPACE with
  | none => some "UserName"
  | some _ => none

/-- Whether a parse outcome is the invalid-input (`ValueError`) failure. -/
def isInvalidInput : Except ParseError (OvfEnv × Bool) → Bool
  | Except.error (ParseError.invalidInput _) => true
  | _ => false

/-- Repeated invocation of the `parse` method on the same object state, as a
fold over the evolving state; the warning flag of each call is discarded. -/
def iterateParse (t : DocText) : Nat → OvfEnv → Except ParseError OvfEnv
  | 0, s => Except.ok s
  | Nat.succ k, s =>
    match OvfEnv.parse s t with
    | Except.error e => Except.error e
    | Except.ok (s2, _) => iterateParse t k s2

/-- A concrete configuration set, the spec's §8 end-to-end example: hostname
`myhost`, username `azureuser`, password authentication disabled, one public
key with fingerprint `ABCD1234` and an empty `Path` element, no key pairs. -/
def sampleConfSet : XmlNode :=
  XmlNode.element WA_NAME_SPACE "LinuxProvisioningConfigurationSet"
    [ XmlNode.element WA_NAME_SPACE "HostName" [XmlNode.text "myhost"],
      XmlNode.element WA_NAME_SPACE "UserName" [XmlNode.text "azureuser"],
      XmlNode.element WA_NAME_SPACE "DisableSshPasswordAuthentication" [XmlNode.text "true"],
      XmlNode.element WA_NAME_SPACE "PublicKey"
        [ XmlNode.element WA_NAME_SPACE "Fingerprint" [XmlNode.text "ABCD1234"],
          XmlNode.element WA_NAME_SPACE "Path" [] ] ]

/-- The `Environment` node of the concrete example, with a chosen `Version`
text. -/
def sampleEnvironmentV (v : String) : XmlNode :=
  XmlNode.element OVF_NAME_SPACE "Environment"
    [ XmlNode.element WA_NAME_SPACE "Version" [XmlNode.text v],
      XmlNode.element WA_NAME_SPACE "ProvisioningSection" [sampleConfSet] ]

/-- A concrete parsed document around `sampleConfSet`, with a chosen
`Version` text. -/
def sampleDocV (v : String) : XmlNode :=
  XmlNode.element "" "#document" [sampleEnvironmentV v]

/-- The end-to-end example document with `Version` text `1.0`. -/
def sampleDoc : XmlNode := sampleDocV "1.0"

/-- The descriptor state the example document parses to. -/
def sampleEnv : OvfEnv :=
  { hostname := some "myhost"
    username := some "azureuser"
    user_password := none
    customdata := none
    disable_ssh_password_auth := true
    ssh_pubkeys := [(none, some "ABCD1234", none)]
    ssh_keypairs := [] }

/-- The example document with the `HostName` element removed. -/
def noHostNameConfSet : XmlNode :=
  XmlNode.element WA_NAME_SPACE "LinuxProvisioningConfigurationSet"
    [ XmlNode.element WA_NAME_SPACE "UserName" [XmlNode.text "azureuser"] ]

/-- A parsed document whose configuration set lacks `HostName`. -/
def noHostNameDoc : XmlNode :=
  XmlNode.element "" "#document"
    [ XmlNode.element OVF_NAME_SPACE "Environment"
        [ XmlNode.element WA_NAME_SPACE "Version" [XmlNode.text "1.0"],
          XmlNode.element WA_NAME_SPACE "ProvisioningSection" [noHostNameConfSet] ] ]

/-- Characterisation of a successful `parse`: when every required lookup
succeeds, `parse` returns the state update the source performs, and the
warning flag is the lexicographic comparison `version > OVF_VERSION`. -/
theorem parse_ok_of_found (s : OvfEnv) (d environment sec conf_set : XmlNode)
    (version hn un : String)
    (h1 : find d "Environment" OVF_NAME_SPACE = some environment)
    (h2 : find environment "ProvisioningSection" WA_NAME_SPACE = some sec)
    (h3 : findtext environment "Version" WA_NAME_SPACE = some version)
    (h4 : find sec "LinuxProvisioningConfigurationSet" WA_NAME_SPACE = some conf_set)
    (h5 : findtext conf_set "HostName" WA_NAME_SPACE = some hn)
    (h6 : findtext conf_set "UserName" WA_NAME_SPACE = some un) :
    OvfEnv.parse s (DocText.parsed d) =
      Except.ok
        ({ s with
            hostname := some hn
            username := some un
            user_password := findtext conf_set "UserPassword" WA_NAME_SPACE
            customdata := findtext conf_set "CustomData" WA_NAME_SPACE
            disable_ssh_password_auth :=
              authFlag (findtext conf_set "DisableSshPasswordAuthentication" WA_NAME_SPACE)
            ssh_pubkeys := s.ssh_pubkeys ++ pubkeysOf conf_set
            ssh_keypairs := s.ssh_keypairs ++ keypairsOf conf_set },
          pyStrLt OVF_VERSION version) := by
  simp [OvfEnv.parse, parse_doc, _validate_ovf, h1, h2, h3, h4, h5, h6,
    authFlag, pubkeysOf, keypairsOf]

/-- When every required lookup succeeds, `firstMissing` reports nothing and
the lookups can be read back off. -/
theorem firstMissing_eq_none (d : XmlNode) (hm : firstMissing d = none) :
    ∃ environment sec conf_set version hn un,
      find d "Environment" OVF_NAME_SPACE = some environment ∧
      find environment "ProvisioningSection" WA_NAME_SPACE = some sec ∧
      findtext environment "Version" WA_NAME_SPACE = some version ∧
      find sec "LinuxProvisioningConfigurationSet" WA_NAME_SPACE = some conf_set ∧
      findtext conf_set "HostName" WA_NAME_SPACE = some hn ∧
      findtext conf_set "UserName" WA_NAME_SPACE = some un ∧
      confSetOf d = some conf_set := by
  unfold firstMissing at hm
  cases h1 : find d "Environment" OVF_NAME_SPACE with
  | none => simp [h1] at hm
  | some environment =>
  simp only [h1] at hm
  cases h2 : find environment "ProvisioningSection" WA_NAME_SPACE with
  | none => simp [h2] at hm
  | some sec =>
  simp only [h2] at hm
  cases h3 : findtext environment "Version" WA_NAME_SPACE with
  | none => simp [h3] at hm
  | some version =>
  simp only [h3] at hm
  cases h4 : find sec "LinuxProvisioningConfigurationSet" WA_NAME_SPACE with
  | none => simp [h4] at hm
  | some conf_set =>
  simp only [h4] at hm
  cases h5 : findtext conf_set "HostName" WA_NAME_SPACE with
  | none => simp [h5] at hm
  | some hn =>
  simp only [h5] at hm
  cases h6 : findtext conf_set "UserName" WA_NAME_SPACE with
  | none => simp [h6] at hm
  | some un =>
  exact ⟨environment, sec, conf_set, version, hn, un, rfl, h2, h3, h4, h5, h6,
    by simp [confSetOf, h1, h2, h4]⟩

/-- Well-formedness of a node list carries to each member. -/
theorem wfNode_of_mem (cs : List XmlNode) (c : XmlNode) (hwf : wfNodes cs = true)
    (hc : c ∈ cs) : wfNode c = true := by
  induction cs with
  | nil => cases hc
  | cons a as ih =>
    rw [wfNodes, Bool.and_eq_true] at hwf
    cases hc with
    | head => exact hwf.1
    | tail _ h => exact ih hwf.2 h

/-- On a well-formed node list, the first text child's data is non-empty. -/
theorem gettextList_ne_empty (cs : List XmlNode) (s : String) (hwf : wfNodes cs = true)
    (hg : gettextList cs = some s) : s ≠ "" := by
  induction cs with
  | nil => simp [gettextList] at hg
  | cons a as ih =>
    rw [wfNodes, Bool.and_eq_true] at hwf
    cases a with
    | text d =>
      rw [gettextList] at hg
      cases hg
      have := hwf.1
      rw [wfNode] at this
      simpa using this
    | element ns name ccs =>
      rw [gettextList] at hg
      exact ih hwf.2 hg

/-- A node returned by `find` is a matching element child of the root. -/
theorem find_mem_filter (nsr namer : String) (cs : List XmlNode) (tag ns : String)
    (x : XmlNode) (h : find (XmlNode.element nsr namer cs) tag ns = some x) :
    x ∈ cs ∧ matchesTag tag ns x = true := by
  have hx : x ∈ findall (XmlNode.element nsr namer cs) tag ns := by
    apply List.mem_of_mem_head?
    rw [Option.mem_def]
    exact h
  rw [findall] at hx
  exact List.mem_filter.mp hx

/-- On a well-formed tree, `findtext` never yields the empty string: an
element with no content has no text child at all, so its text is unset
rather than empty. -/
theorem findtext_ne_empty (root : XmlNode) (tag ns s : String)
    (hwf : wfNode root = true) (h : findtext root tag ns = some s) : s ≠ "" := by
  unfold findtext at h
  cases hf : find root tag ns with
  | none =>
    rw [hf] at h
    exact Option.noConfusion h
  | some x =>
    rw [hf] at h
    simp only [Option.some_bind] at h
    cases root with
    | text d =>
      rw [find, findall] at hf
      exact Option.noConfusion hf
    | element nsr namer cs =>
      have hx := find_mem_filter nsr namer cs tag ns x hf
      have hwfx : wfNode x = true := wfNode_of_mem cs x (by rwa [wfNode] at hwf) hx.1
      cases x with
      | text d =>
        have := hx.2
        rw [matchesTag] at this
        exact Bool.noConfusion this
      | element nsx namex csx =>
        rw [gettext] at h
        exact gettextList_ne_empty csx s (by rwa [wfNode] at hwfx) h

/-- Characterisation of a failed traversal: when `firstMissing` names a
required element, `parse` raises `ProtocolError` with the message naming
exactly that element, from any starting state. -/
theorem parse_error_of_firstMissing (s : OvfEnv) (d : XmlNode) (name : String)
    (hm : firstMissing d = some name) :
    OvfEnv.parse s (DocText.parsed d) =
      Except.error
        (ParseError.protocolError ("Failed to parse OVF XML: " ++ (name ++ " not found"))) := by
  cases h1 : find d "Environment" OVF_NAME_SPACE with
  | none =>
    simp only [firstMissing, h1] at hm
    have hn := Option.some.inj hm
    subst hn
    simp only [OvfEnv.parse, parse_doc, _validate_ovf, h1]
    rfl
  | some environment =>
  cases h2 : find environment "ProvisioningSection" WA_NAME_SPACE with
  | none =>
    simp only [firstMissing, h1, h2] at hm
    have hn := Option.some.inj hm
    subst hn
    simp only [OvfEnv.parse, parse_doc, _validate_ovf, h1, h2]
    rfl
  | some sec =>
  cases h3 : findtext environment "Version" WA_NAME_SPACE with
  | none =>
    simp only [firstMissing, h1, h2, h3] at hm
    have hn := Option.some.inj hm
    subst hn
    simp only [OvfEnv.parse, parse_doc, _validate_ovf, h1, h2, h3]
    rfl
  | some version =>
  cases h4 : find sec "LinuxProvisioningConfigurationSet" WA_NAME_SPACE with
  | none =>
    simp only [firstMissing, h1, h2, h3, h4] at hm
    have hn := Option.some.inj hm
    subst hn
    simp only [OvfEnv.parse, parse_doc, _validate_ovf, h1, h2, h3, h4]
    rfl
  | some conf_set =>
  cases h5 : findtext conf_set "HostName" WA_NAME_SPACE with
  | none =>
    simp only [firstMissing, h1, h2, h3, h4, h5] at hm
    have hn := Option.some.inj hm
    subst hn
    simp only [OvfEnv.parse, parse_doc, _validate_ovf, h1, h2, h3, h4, h5]
    rfl
  | some hn =>
  cases h6 : findtext conf_set "UserName" WA_NAME_SPACE with
  | none =>
    simp only [firstMissing, h1, h2, h3, h4, h5, h6] at hm
    have hname := Option.some.inj hm
    subst hname
    simp only [OvfEnv.parse, parse_doc, _validate_ovf, h1, h2, h3, h4, h5, h6]
    rfl
  | some un =>
    simp only [firstMissing, h1, h2, h3, h4, h5, h6] at hm
    exact Option.noConfusion hm

/-- Well-formedness is inherited by any node a lookup returns. -/
theorem wfNode_of_find (root : XmlNode) (tag ns : String) (x : XmlNode)
    (hwf : wfNode root = true) (h : find root tag ns = some x) : wfNode x = true := by
  cases root with
  | text d =>
    rw [find, findall] at h
    exact Option.noConfusion h
  | element nsr namer cs =>
    have hx := find_mem_filter nsr namer cs tag ns x h
    exact wfNode_of_mem cs x (by rwa [wfNode] at hwf) hx.1

/-- Inversion of a successful `parse`: every required lookup succeeded and
the result is exactly the source's state update. -/
theorem parse_ok_inv (s : OvfEnv) (d : XmlNode) (env : OvfEnv) (w : Bool)
    (h : OvfEnv.parse s (DocText.parsed d) = Except.ok (env, w)) :
    ∃ environment sec conf_set version hn un,
      find d "Environment" OVF_NAME_SPACE = some environment ∧
      find environment "ProvisioningSection" WA_NAME_SPACE = some sec ∧
      findtext environment "Version" WA_NAME_SPACE = some version ∧
      find sec "LinuxProvisioningConfigurationSet" WA_NAME_SPACE = some conf_set ∧
      findtext conf_set "HostName" WA_NAME_SPACE = some hn ∧
      findtext conf_set "UserName" WA_NAME_SPACE = some un ∧
      confSetOf d = some conf_set ∧
      env =
        { s with
            hostname := some hn
            username := some un
            user_password := findtext conf_set "UserPassword" WA_NAME_SPACE
            customdata := findtext conf_set "CustomData" WA_NAME_SPACE
            disable_ssh_password_auth :=
              authFlag (findtext conf_set "DisableSshPasswordAuthentication" WA_NAME_SPACE)
            ssh_pubkeys := s.ssh_pubkeys ++ pubkeysOf conf_set
            ssh_keypairs := s.ssh_keypairs ++ keypairsOf conf_set } ∧
      w = pyStrLt OVF_VERSION version := by
  cases h1 : find d "Environment" OVF_NAME_SPACE with
  | none =>
    simp only [OvfEnv.parse, parse_doc, _validate_ovf, h1] at h
    exact Except.noConfusion h
  | some environment =>
  cases h2 : find environment "ProvisioningSection" WA_NAME_SPACE with
  | none =>
    simp only [OvfEnv.parse, parse_doc, _validate_ovf, h1, h2] at h
    exact Except.noConfusion h
  | some sec =>
  cases h3 : findtext environment "Version" WA_NAME_SPACE with
  | none =>
    simp only [OvfEnv.parse, parse_doc, _validate_ovf, h1, h2, h3] at h
    exact Except.noConfusion h
  | some version =>
  cases h4 : find sec "LinuxProvisioningConfigurationSet" WA_NAME_SPACE with
  | none =>
    simp only [OvfEnv.parse, parse_doc, _validate_ovf, h1, h2, h3, h4] at h
    exact Except.noConfusion h
  | some conf_set =>
  cases h5 : findtext conf_set "HostName" WA_NAME_SPACE with
  | none =>
    simp only [OvfEnv.parse, parse_doc, _validate_ovf, h1, h2, h3, h4, h5] at h
    exact Except.noConfusion h
  | some hn =>
  cases h6 : findtext conf_set "UserName" WA_NAME_SPACE with
  | none =>
    simp only [OvfEnv.parse, parse_doc, _validate_ovf, h1, h2, h3, h4, h5, h6] at h
    exact Except.noConfusion h
  | some un =>
    rw [parse_ok_of_found s d environment sec conf_set version hn un h1 h2 h3 h4 h5 h6] at h
    have hpair := Except.ok.inj h
    have he : env = _ := (congrArg Prod.fst hpair).symm
    have hw : w = pyStrLt OVF_VERSION version := (congrArg Prod.snd hpair).symm
    exact ⟨environment, sec, conf_set, version, hn, un, rfl, h2, h3, h4, h5, h6,
      by simp [confSetOf, h1, h2, h4], he, hw⟩

/-- C1: on every well-formed document text accepted by the parser
(construction of the descriptor succeeds), the resulting descriptor's
`hostname` and `username` are non-empty strings; and on any document in
which either field would be empty or absent (its `HostName`/`UserName`
lookup under the configuration set yields no text), construction fails and
no descriptor is produced. -/
theorem c1_hostname_username_nonempty (t : DocText) (hwf : wfDoc t = true) :
    (∀ env w, OvfEnv.init (some t) = Except.ok (env, w) →
      (∃ hn, env.hostname = some hn ∧ hn ≠ "") ∧
      (∃ un, env.username = some un ∧ un ≠ "")) ∧
    (∀ d conf_set, t = DocText.parsed d → confSetOf d = some conf_set →
      (findtext conf_set "HostName" WA_NAME_SPACE = none ∨
        findtext conf_set "UserName" WA_NAME_SPACE = none) →
      ∃ e, OvfEnv.init (some t) = Except.error e) := by
  constructor
  · intro env w hok
    cases t with
    | malformed s' => exact Except.noConfusion hok
    | parsed d =>
      obtain ⟨environment, sec, conf_set, version, hn, un, h1, h2, h3, h4, h5, h6, hcs, he, hw⟩ :=
        parse_ok_inv initialOvfEnv d env w hok
      rw [wfDoc] at hwf
      have wf1 := wfNode_of_find d "Environment" OVF_NAME_SPACE environment hwf h1
      have wf2 := wfNode_of_find environment "ProvisioningSection" WA_NAME_SPACE sec wf1 h2
      have wf4 := wfNode_of_find sec "LinuxProvisioningConfigurationSet" WA_NAME_SPACE
        conf_set wf2 h4
      subst he
      exact ⟨⟨hn, rfl, findtext_ne_empty conf_set "HostName" WA_NAME_SPACE hn wf4 h5⟩,
        ⟨un, rfl, findtext_ne_empty conf_set "UserName" WA_NAME_SPACE un wf4 h6⟩⟩
  · intro d conf_set ht hcs hmiss
    subst ht
    cases hm : firstMissing d with
    | some name =>
      exact ⟨ParseError.protocolError ("Failed to parse OVF XML: " ++ (name ++ " not found")),
        parse_error_of_firstMissing initialOvfEnv d name hm⟩
    | none =>
      obtain ⟨environment, sec, conf_set2, version, hn, un, h1, h2, h3, h4, h5, h6, hcs2⟩ :=
        firstMissing_eq_none d hm
      have hceq : conf_set2 = conf_set := by
        rw [hcs2] at hcs
        exact Option.some.inj hcs
      subst hceq
      cases hmiss with
      | inl h => rw [h5] at h; exact Option.noConfusion h
      | inr h => rw [h6] at h; exact Option.noConfusion h

/-- Witness for C1: the end-to-end example document yields non-empty
`myhost`/`azureuser`, and the same document with `HostName` removed is
rejected. -/
theorem c1_witness :
    ((∃ hn, sampleEnv.hostname = some hn ∧ hn ≠ "") ∧
      (∃ un, sampleEnv.username = some un ∧ un ≠ "")) ∧
    (∃ e, OvfEnv.init (some (DocText.parsed noHostNameDoc)) = Except.error e) :=
  ⟨(c1_hostname_username_nonempty (DocText.parsed sampleDoc) (by rfl)).1 sampleEnv false (by rfl),
    (c1_hostname_username_nonempty (DocText.parsed noHostNameDoc) (by rfl)).2
      noHostNameDoc noHostNameConfSet rfl (by rfl) (Or.inl (by rfl))⟩

/-- C2: for every well-formed XML document missing a required traversal
point (the first one missing being `name`: one of Environment,
ProvisioningSection, Version, LinuxProvisioningConfigurationSet, HostName,
UserName), `parse` fails with the single structural-validation error kind
(`ProtocolError`), whose message names the missing element, and no
incomplete descriptor is returned. -/
theorem c2_missing_required_element (d : XmlNode) (name : String)
    (hm : firstMissing d = some name) :
    OvfEnv.init (some (DocText.parsed d)) =
      Except.error
        (ParseError.protocolError ("Failed to parse OVF XML: " ++ (name ++ " not found"))) :=
  parse_error_of_firstMissing initialOvfEnv d name hm

/-- Witness for C2: the example document without its `HostName` element
fails with the message naming `HostName`. -/
theorem c2_witness :
    OvfEnv.init (some (DocText.parsed noHostNameDoc)) =
      Except.error
        (ParseError.protocolError ("Failed to parse OVF XML: " ++ ("HostName" ++ " not found"))) :=
  c2_missing_required_element noHostNameDoc "HostName" (by rfl)

/-- C3: for every well-formed document containing every required element
with non-empty text, `parse` succeeds and the descriptor's `hostname` and
`username` equal, character for character, the text content of the
document's `HostName` and `UserName` elements. -/
theorem c3_hostname_username_verbatim (d conf_set : XmlNode) (hn un : String)
    (hcs : confSetOf d = some conf_set)
    (hm : firstMissing d = none)
    (hhn : findtext conf_set "HostName" WA_NAME_SPACE = some hn)
    (hun : findtext conf_set "UserName" WA_NAME_SPACE = some un)
    (_hne1 : hn ≠ "") (_hne2 : un ≠ "") :
    ∃ env w, OvfEnv.init (some (DocText.parsed d)) = Except.ok (env, w) ∧
      env.hostname = some hn ∧ env.username = some un := by
  obtain ⟨environment, sec, conf_set2, version, hn2, un2, h1, h2, h3, h4, h5, h6, hcs2⟩ :=
    firstMissing_eq_none d hm
  have hceq : conf_set2 = conf_set := Option.some.inj (hcs2.symm.trans hcs)
  subst hceq
  exact ⟨_, _,
    parse_ok_of_found initialOvfEnv d environment sec conf_set2 version hn un
      h1 h2 h3 h4 hhn hun, rfl, rfl⟩

/-- Witness for C3: the example document yields exactly `myhost` and
`azureuser`. -/
theorem c3_witness :
    ∃ env w, OvfEnv.init (some (DocText.parsed sampleDoc)) = Except.ok (env, w) ∧
      env.hostname = some "myhost" ∧ env.username = some "azureuser" :=
  c3_hostname_username_verbatim sampleDoc sampleConfSet "myhost" "azureuser"
    (by rfl) (by rfl) (by rfl) (by rfl) (by decide) (by decide)

/-- C4: on every successfully parsed document, `disable_ssh_password_auth`
is true exactly when the `DisableSshPasswordAuthentication` element is
present and its text, lowercased, equals the literal `true`; absence or any
other value gives false. -/
theorem c4_disable_ssh_password_auth (d conf_set : XmlNode)
    (hcs : confSetOf d = some conf_set) (env : OvfEnv) (w : Bool)
    (h : OvfEnv.init (some (DocText.parsed d)) = Except.ok (env, w)) :
    (env.disable_ssh_password_auth = true ↔
      ∃ s, findtext conf_set "DisableSshPasswordAuthentication" WA_NAME_SPACE = some s ∧
        pyLower s = "true") := by
  obtain ⟨environment, sec, conf_set2, version, hn, un, h1, h2, h3, h4, h5, h6, hcs2, he, hw⟩ :=
    parse_ok_inv initialOvfEnv d env w h
  have hceq : conf_set2 = conf_set := Option.some.inj (hcs2.symm.trans hcs)
  subst hceq
  subst he
  cases hopt : findtext conf_set2 "DisableSshPasswordAuthentication" WA_NAME_SPACE with
  | none => simp [authFlag, hopt]
  | some s => simp [authFlag, hopt]

/-- Witness for C4: in the example document the element holds `true`, and
the parsed flag is set. -/
theorem c4_witness :
    sampleEnv.disable_ssh_password_auth = true ↔
      ∃ s, findtext sampleConfSet "DisableSshPasswordAuthentication" WA_NAME_SPACE = some s ∧
        pyLower s = "true" :=
  c4_disable_ssh_password_auth sampleDoc sampleConfSet (by rfl) sampleEnv false (by rfl)

/-- Whether an error is the structural-validation kind (`ProtocolError`). -/
def isStructural : ParseError → Bool
  | ParseError.protocolError _ => true
  | _ => false

/-- C5 counterexample: calling the parser with the empty document text does
not fail with the invalid-input error kind — it fails in XML parsing with
the malformed-XML error, so the claim "absent or empty input fails with the
invalid-input kind" is false for the empty string. -/
theorem c5_counterexample :
    OvfEnv.init (some (DocText.malformed "")) = Except.error ParseError.malformedXml ∧
    isInvalidInput (OvfEnv.init (some (DocText.malformed ""))) = false :=
  ⟨rfl, rfl⟩

/-- C5 (amended): an absent document text fails with the invalid-input
error kind, which is distinct from the structural-validation kind; an empty
document text instead reaches the XML parser and fails with the
malformed-XML error. -/
theorem c5_absent_input_invalid :
    OvfEnv.init none = Except.error (ParseError.invalidInput "ovf-env is None") ∧
    isInvalidInput (OvfEnv.init none) = true ∧
    isStructural (ParseError.invalidInput "ovf-env is None") = false ∧
    OvfEnv.init (some (DocText.malformed "")) = Except.error ParseError.malformedXml :=
  ⟨rfl, rfl, rfl, rfl⟩

/-- C6: on every successfully parsed document, the key sequences are
exactly the per-child `(Path, Fingerprint, Value)` / `(Path, Fingerprint)`
optional-text tuples of the `PublicKey` / `KeyPair` children, in document
order — in particular one entry per child, with absent sub-elements mapped
to the unset state. -/
theorem c6_key_sequences (d conf_set : XmlNode)
    (hcs : confSetOf d = some conf_set) (env : OvfEnv) (w : Bool)
    (h : OvfEnv.init (some (DocText.parsed d)) = Except.ok (env, w)) :
    env.ssh_pubkeys = pubkeysOf conf_set ∧
    env.ssh_keypairs = keypairsOf conf_set ∧
    env.ssh_pubkeys.length = (findall conf_set "PublicKey" WA_NAME_SPACE).length ∧
    env.ssh_keypairs.length = (findall conf_set "KeyPair" WA_NAME_SPACE).length := by
  obtain ⟨environment, sec, conf_set2, version, hn, un, h1, h2, h3, h4, h5, h6, hcs2, he, hw⟩ :=
    parse_ok_inv initialOvfEnv d env w h
  have hceq : conf_set2 = conf_set := Option.some.inj (hcs2.symm.trans hcs)
  subst hceq
  subst he
  refine ⟨by simp [initialOvfEnv], by simp [initialOvfEnv], ?_, ?_⟩
  · simp [initialOvfEnv, pubkeysOf]
  · simp [initialOvfEnv, keypairsOf]

/-- Witness for C6: the example document holds one public key (with unset
path and value) and no key pairs. -/
theorem c6_witness :
    sampleEnv.ssh_pubkeys = pubkeysOf sampleConfSet ∧
    sampleEnv.ssh_keypairs = keypairsOf sampleConfSet ∧
    sampleEnv.ssh_pubkeys.length = (findall sampleConfSet "PublicKey" WA_NAME_SPACE).length ∧
    sampleEnv.ssh_keypairs.length = (findall sampleConfSet "KeyPair" WA_NAME_SPACE).length :=
  c6_key_sequences sampleDoc sampleConfSet (by rfl) sampleEnv false (by rfl)

/-- C7: for every document whose required elements are all present,
parsing succeeds and returns a full descriptor, and the compatibility
warning is emitted exactly when the `Version` text is greater than `1.0`
under the lexicographic (code-point) string comparison `pyStrLt` — not a
semantic version comparison. -/
theorem c7_version_warning (d environment : XmlNode) (version : String)
    (h1 : find d "Environment" OVF_NAME_SPACE = some environment)
    (hver : findtext environment "Version" WA_NAME_SPACE = some version)
    (hm : firstMissing d = none) :
    ∃ env w, OvfEnv.init (some (DocText.parsed d)) = Except.ok (env, w) ∧
      (w = true ↔ pyStrLt OVF_VERSION version = true) := by
  obtain ⟨environment2, sec, conf_set, version2, hn, un, g1, g2, g3, g4, g5, g6, hcs⟩ :=
    firstMissing_eq_none d hm
  have henv : environment2 = environment := Option.some.inj (g1.symm.trans h1)
  subst henv
  have hv : version2 = version := Option.some.inj (g3.symm.trans hver)
  subst hv
  exact ⟨_, _,
    parse_ok_of_found initialOvfEnv d environment2 sec conf_set version2 hn un
      g1 g2 g3 g4 g5 g6, Iff.rfl⟩

/-- Witness for C7: a document with `Version` text `1.10` (lexicographically
greater than `1.0`) parses successfully and trips the warning. -/
theorem c7_witness :
    ∃ env w, OvfEnv.init (some (DocText.parsed (sampleDocV "1.10"))) = Except.ok (env, w) ∧
      (w = true ↔ pyStrLt OVF_VERSION "1.10" = true) :=
  c7_version_warning (sampleDocV "1.10") (sampleEnvironmentV "1.10") "1.10"
    (by rfl) (by rfl) (by rfl)

/-- C8: the parser is deterministic — two invocations on the same document
text either both fail, or both yield descriptors that are field-for-field
equal. -/
theorem c8_deterministic (t : Option DocText) (r1 r2 : Except ParseError (OvfEnv × Bool))
    (h1 : OvfEnv.init t = r1) (h2 : OvfEnv.init t = r2) :
    ((∃ e, r1 = Except.error e) ↔ (∃ e, r2 = Except.error e)) ∧
    ∀ env1 w1 env2 w2, r1 = Except.ok (env1, w1) → r2 = Except.ok (env2, w2) →
      env1.hostname = env2.hostname ∧ env1.username = env2.username ∧
      env1.user_password = env2.user_password ∧ env1.customdata = env2.customdata ∧
      env1.disable_ssh_password_auth = env2.disable_ssh_password_auth ∧
      env1.ssh_pubkeys = env2.ssh_pubkeys ∧ env1.ssh_keypairs = env2.ssh_keypairs := by
  subst h1
  subst h2
  refine ⟨Iff.rfl, ?_⟩
  intro env1 w1 env2 w2 hA hB
  have hok : (Except.ok (env1, w1) : Except ParseError (OvfEnv × Bool)) = Except.ok (env2, w2) :=
    hA.symm.trans hB
  have hp := Except.ok.inj hok
  have henv : env1 = env2 := congrArg Prod.fst hp
  subst henv
  exact ⟨rfl, rfl, rfl, rfl, rfl, rfl, rfl⟩

/-- Witness for C8: instantiated at the example document, whose two parses
agree on every field. -/
theorem c8_witness :
    sampleEnv.hostname = sampleEnv.hostname ∧ sampleEnv.username = sampleEnv.username ∧
    sampleEnv.user_password = sampleEnv.user_password ∧
    sampleEnv.customdata = sampleEnv.customdata ∧
    sampleEnv.disable_ssh_password_auth = sampleEnv.disable_ssh_password_auth ∧
    sampleEnv.ssh_pubkeys = sampleEnv.ssh_pubkeys ∧
    sampleEnv.ssh_keypairs = sampleEnv.ssh_keypairs :=
  (c8_deterministic (some (DocText.parsed sampleDoc)) _ _ rfl rfl).2
    sampleEnv false sampleEnv false (by rfl) (by rfl)

/-- C9: the constructor rejects only an absent (`None`) document with the
invalid-input error; the empty string is not treated as absent — it
proceeds to XML parsing and fails with the malformed-XML error — and no
supplied document, whatever its content, ever produces the invalid-input
kind. -/
theorem c9_only_absent_invalid :
    OvfEnv.init none = Except.error (ParseError.invalidInput "ovf-env is None") ∧
    OvfEnv.init (some (DocText.malformed "")) = Except.error ParseError.malformedXml ∧
    ∀ t : DocText, isInvalidInput (OvfEnv.init (some t)) = false := by
  refine ⟨rfl, rfl, ?_⟩
  intro t
  cases t with
  | malformed s' => rfl
  | parsed d =>
    simp only [OvfEnv.init]
    cases hm : firstMissing d with
    | some name =>
      rw [parse_error_of_firstMissing initialOvfEnv d name hm]
      rfl
    | none =>
      obtain ⟨environment, sec, conf_set, version, hn, un, h1, h2, h3, h4, h5, h6, hcs⟩ :=
        firstMissing_eq_none d hm
      rw [parse_ok_of_found initialOvfEnv d environment sec conf_set version hn un
        h1 h2 h3 h4 h5 h6]
      rfl

/-- Witness for C9: applied to the example document, which is not rejected
as invalid input. -/
theorem c9_witness :
    isInvalidInput (OvfEnv.init (some (DocText.parsed sampleDoc))) = false :=
  c9_only_absent_invalid.2.2 (DocText.parsed sampleDoc)

/-- C10: the `parse` method appends to the key sequences instead of
replacing them: k parse calls of the same successfully-parsing document,
starting from the freshly initialised state, leave exactly k·N public-key
entries and k·M key-pair entries, where N and M are the counts of
`PublicKey` and `KeyPair` children. -/
theorem c10_parse_appends (d conf_set : XmlNode)
    (hcs : confSetOf d = some conf_set) (hm : firstMissing d = none) (k : Nat) :
    ∃ env, iterateParse (DocText.parsed d) k initialOvfEnv = Except.ok env ∧
      env.ssh_pubkeys.length = k * (findall conf_set "PublicKey" WA_NAME_SPACE).length ∧
      env.ssh_keypairs.length = k * (findall conf_set "KeyPair" WA_NAME_SPACE).length := by
  obtain ⟨environment, sec, conf_set2, version, hn, un, h1, h2, h3, h4, h5, h6, hcs2⟩ :=
    firstMissing_eq_none d hm
  have hceq : conf_set2 = conf_set := Option.some.inj (hcs2.symm.trans hcs)
  subst hceq
  have main : ∀ n : Nat, ∀ s : OvfEnv,
      ∃ env, iterateParse (DocText.parsed d) n s = Except.ok env ∧
        env.ssh_pubkeys.length =
          s.ssh_pubkeys.length + n * (findall conf_set2 "PublicKey" WA_NAME_SPACE).length ∧
        env.ssh_keypairs.length =
          s.ssh_keypairs.length + n * (findall conf_set2 "KeyPair" WA_NAME_SPACE).length := by
    intro n
    induction n with
    | zero => intro s; exact ⟨s, rfl, by simp, by simp⟩
    | succ n ih =>
      intro s
      have hstep := parse_ok_of_found s d environment sec conf_set2 version hn un
        h1 h2 h3 h4 h5 h6
      obtain ⟨env, hiter, hpub, hkp⟩ := ih
        { s with
            hostname := some hn
            username := some un
            user_password := findtext conf_set2 "UserPassword" WA_NAME_SPACE
            customdata := findtext conf_set2 "CustomData" WA_NAME_SPACE
            disable_ssh_password_auth :=
              authFlag (findtext conf_set2 "DisableSshPasswordAuthentication" WA_NAME_SPACE)
            ssh_pubkeys := s.ssh_pubkeys ++ pubkeysOf conf_set2
            ssh_keypairs := s.ssh_keypairs ++ keypairsOf conf_set2 }
      refine ⟨env, ?_, ?_, ?_⟩
      · rw [iterateParse, hstep]
        exact hiter
      · rw [hpub]
        simp [pubkeysOf, Nat.succ_mul]
        omega
      · rw [hkp]
        simp [keypairsOf, Nat.succ_mul]
        omega
  obtain ⟨env, hiter, hpub, hkp⟩ := main k initialOvfEnv
  exact ⟨env, hiter, by simpa [initialOvfEnv] using hpub,
    by simpa [initialOvfEnv] using hkp⟩

/-- Witness for C10: two parses of the example document leave two
public-key entries (2·1) and no key pairs (2·0). -/
theorem c10_witness :
    ∃ env, iterateParse (DocText.parsed sampleDoc) 2 initialOvfEnv = Except.ok env ∧
      env.ssh_pubkeys.length = 2 * (findall sampleConfSet "PublicKey" WA_NAME_SPACE).length ∧
      env.ssh_keypairs.length = 2 * (findall sampleConfSet "KeyPair" WA_NAME_SPACE).length :=
  c10_parse_appends sampleDoc sampleConfSet (by rfl) (by rfl) 2
